import Mathlib

/-!
Shallow embedding of the join-server settings form of the LoRaWAN stack web
console: the conditional validation schema
(pkg/webui/console/views/device-general-settings/join-server-form/validation-schema.js)
and the form controller
(pkg/webui/console/views/device-general-settings/join-server-form/index.js).

JavaScript objects are modelled as structures of Option-valued fields, where
`none` models an absent (undefined) field. The Yup combinators used by the
schema (when, strip, default, matches, length, transform, lazy) are embedded
by their effect on the two schema operations: `cast` applies transforms,
defaults and stripping; `validate` casts and then runs the format tests on
the cast result, reporting one error-message identifier per violated field.
The random default generator for root keys is modelled by an explicit seed
argument threaded through `cast`.
-/

/-- The `root_keys` object of a device. Each key field is either absent
(`none`, the JS field is undefined), the empty marker object (`some none`,
a key object with zero enumerable properties, i.e. a key withheld by the
server), or a key object carrying a hex string (`some (some k)`, i.e. the
JS object with a `key` property holding `k`). -/
structure RootKeys where
  nwk_key : Option (Option String) := none
  app_key : Option (Option String) := none
deriving DecidableEq, Repr

/-- The join-server related fields of a device record / of the form values:
exactly the fields declared by the validation schema. Absent JS fields are
`none`. -/
structure DeviceValues where
  join_server_address : Option String := none
  net_id : Option String := none
  root_keys : Option RootKeys := none
  resets_join_nonces : Option Bool := none
  _external_js : Option Bool := none
deriving DecidableEq, Repr

/-- The Yup cast/validate context as used by the form controller:
`externalJs` is the `$externalJs` context value and `lorawanVersion` holds
the device LoRaWAN MAC version already parsed by `parseLorawanMacVersion`
(a helper outside these sources, e.g. the string "1.1.0" parses to 110).
`none` models an undefined context entry (no options object passed) or an
absent/unparseable version. -/
structure CastContext where
  externalJs : Option Bool := none
  lorawanVersion : Option Nat := none
deriving DecidableEq, Repr

/-- Per-field validation errors reported by `validate`, one optional
error-message identifier per tested schema field. `none` means the field
test passed (or was stripped / not active). -/
structure FieldErrors where
  join_server_address : Option String := none
  net_id : Option String := none
  nwk_key : Option String := none
  app_key : Option String := none
deriving DecidableEq, Repr

def FieldErrors.isEmpty (e : FieldErrors) : Bool :=
  e.join_server_address.isNone && e.net_id.isNone && e.nwk_key.isNone && e.app_key.isNone

/-- Lowercase hexadecimal digit for `k % 16`. -/
def hexChar (k : Nat) : Char :=
  match k % 16 with
  | 0 => '0' | 1 => '1' | 2 => '2' | 3 => '3' | 4 => '4' | 5 => '5' | 6 => '6' | 7 => '7'
  | 8 => '8' | 9 => '9' | 10 => 'a' | 11 => 'b' | 12 => 'c' | 13 => 'd' | 14 => 'e'
  | _ => 'f'

/-- A lowercase hexadecimal digit. -/
def isHexDigitChar (c : Char) : Bool := c.isDigit || ('a' ≤ c && c ≤ 'f')

/-- A string all of whose characters are hexadecimal digits. -/
def isHexString (s : String) : Bool := s.data.all isHexDigitChar

/-- Modelled from the spec: the random-bytes generator collaborator
(webui lib random-bytes, not under src/) produces cryptographically random
hexadecimal strings; `randomByteString n seed` returns `n` hex characters.
The randomness source is modelled by the explicit `seed` argument that the
embedding threads through `cast`. -/
def randomByteString (n seed : Nat) : String :=
  String.mk ((List.range n).map fun i => hexChar (seed / 16 ^ i))

/-- Source: `const random16BytesString = () => randomByteString(32)`. -/
def random16BytesString (seed : Nat) : String := randomByteString 32 seed

/-- Modelled from the spec: the hostname portion of the statically configured
join-server base URL, `new URL(jsConfig.base_url).hostname`, where `jsConfig`
comes from `selectJsConfig()` (env selector, not under src/). -/
def jsHostname : String := "localhost"

/-- Modelled from the spec: the `address` regular expression from the console
regexp library (not under src/), a hostname/address pattern: nonempty, made
of alphanumeric characters, dots, hyphens and an optional port separator. -/
def addressMatches (s : String) : Bool :=
  !s.isEmpty && s.data.all fun c => c.isAlphanum || c == '.' || c == '-' || c == ':'

/-- Modelled from the spec: the custom Yup string extension
`emptyOrLength(length, message)` (not under src/), following the spec rule
for net_id: an optional string that, if non-empty, must be exactly `len`
hexadecimal characters (the call site passes `3 * 2` for 3 bytes of hex).
The value passes exactly when it is empty or is a hexadecimal string of the
given length. -/
def emptyOrLength (len : Nat) (s : String) : Bool :=
  s == "" || (s.length == len && isHexString s)

/-- Modelled from the spec: the comparison `parseLorawanMacVersion(version) >= 110`
used by the schema. The context holds the already-parsed version; an absent
or unparseable version (`none`) is treated as below 110 (the spec-mandated
most-restrictive default). -/
def versionAtLeast110 : Option Nat → Bool
  | some n => decide (110 ≤ n)
  | none => false

namespace validationSchema

/-- Cast of `join_server_address` (validation-schema.js lines 31-38):
`Yup.string().when($externalJs)`; when the context value is `false` the
schema is `matches(addressRegexp).default(hostname of base_url)`, otherwise
the field is stripped. Cast applies the default to an undefined value and
keeps present strings. -/
def castJoinServerAddress (ctx : CastContext) (v : Option String) : Option String :=
  if ctx.externalJs = some false then
    match v with
    | none => some jsHostname
    | some s => some s
  else
    none

/-- Cast of `net_id` (lines 39-45): stripped when `$externalJs` is `true`,
otherwise a nullable string with `emptyOrLength(3 * 2)` and default `""`. -/
def castNetId (ctx : CastContext) (v : Option String) : Option String :=
  if ctx.externalJs = some true then
    none
  else
    match v with
    | none => some ""
    | some s => some s

/-- Cast of one root key object under the non-stripped key schema
(lines 49-57): an object `key: Yup.string().length(16 * 2).default(random16BytesString)`.
An absent key object is filled from the object default, an empty key object
gets the defaulted random key, a present key is kept. -/
def castKeyObject (seed : Nat) (v : Option (Option String)) : Option (Option String) :=
  match v with
  | none => some (some (random16BytesString seed))
  | some none => some (some (random16BytesString seed))
  | some (some k) => some (some k)

/-- Cast of `root_keys` (lines 46-79): when `$externalJs` is truthy both
`nwk_key` and `app_key` are stripped; otherwise, when the parsed version is
below 110 only `app_key` is resolved under the key schema and `nwk_key` is
stripped; from 110 on both are resolved under the key schema. The object
default of Yup materialises `root_keys` itself in every branch. -/
def castRootKeys (ctx : CastContext) (seedN seedA : Nat) (v : Option RootKeys) : Option RootKeys :=
  if ctx.externalJs = some true then
    some { nwk_key := none, app_key := none }
  else
    let rk := v.getD {}
    if versionAtLeast110 ctx.lorawanVersion then
      some { nwk_key := castKeyObject seedN rk.nwk_key, app_key := castKeyObject seedA rk.app_key }
    else
      some { nwk_key := none, app_key := castKeyObject seedA rk.app_key }

/-- Cast of `resets_join_nonces` (lines 80-85): default `false` when the
parsed version is at least 110, stripped otherwise. -/
def castResetsJoinNonces (ctx : CastContext) (v : Option Bool) : Option Bool :=
  if versionAtLeast110 ctx.lorawanVersion then some (v.getD false) else none

/-- Cast of `_external_js` (lines 86-94): `transform(() => true)` when the
`$externalJs` context value is `true`, `transform(() => false)` otherwise;
the transform forces the output regardless of the input value. -/
def castExternalJsField (ctx : CastContext) (v : Option Bool) : Option Bool :=
  if ctx.externalJs = some true then some true else some false

/-- `validationSchema.cast(values, options)`: field-wise cast with
defaulting, stripping and transforms as resolved against the context. The
two root-key default generators are two distinct draws from the modelled
randomness source. -/
def cast (v : DeviceValues) (ctx : CastContext) (seed : Nat) : DeviceValues :=
  { join_server_address := castJoinServerAddress ctx v.join_server_address
    net_id := castNetId ctx v.net_id
    root_keys := castRootKeys ctx (2 * seed) (2 * seed + 1) v.root_keys
    resets_join_nonces := castResetsJoinNonces ctx v.resets_join_nonces
    _external_js := castExternalJsField ctx v._external_js }

/-- Test of `join_server_address` on the cast value: the `matches` test
runs only when the field schema is not stripped (context `externalJs` equal
to `false`); it skips an absent value and tests present strings (including
the empty string) against the address pattern. -/
def testJoinServerAddress (ctx : CastContext) (v : Option String) : Option String :=
  if ctx.externalJs = some false then
    match v with
    | none => none
    | some s => if addressMatches s then none else some "validateAddressFormat"
  else
    none

/-- Test of `net_id` on the cast value: the `emptyOrLength(3 * 2)` test runs
unless the field is stripped (context `externalJs` equal to `true`). -/
def testNetId (ctx : CastContext) (v : Option String) : Option String :=
  if ctx.externalJs = some true then
    none
  else
    match v with
    | none => none
    | some s => if emptyOrLength (3 * 2) s then none else some "validate6"

/-- Test of one root key under the key schema: `length(16 * 2)` on the `key`
property, active only when the key schema is not stripped; absent values are
skipped by the Yup length test. -/
def testKey (active : Bool) (v : Option (Option String)) : Option String :=
  if active then
    match v with
    | some (some k) => if k.length = 16 * 2 then none else some "validate32"
    | _ => none
  else
    none

/-- All field tests of the schema, run on a cast value against the resolved
context: the nwk key schema is active when `$externalJs` is not truthy and
the parsed version is at least 110, the app key schema whenever `$externalJs`
is not truthy. -/
def fieldErrors (c : DeviceValues) (ctx : CastContext) : FieldErrors :=
  { join_server_address := testJoinServerAddress ctx c.join_server_address
    net_id := testNetId ctx c.net_id
    nwk_key :=
      testKey ((!(ctx.externalJs = some true : Bool)) && versionAtLeast110 ctx.lorawanVersion)
        ((c.root_keys.getD {}).nwk_key)
    app_key :=
      testKey (!(ctx.externalJs = some true : Bool)) ((c.root_keys.getD {}).app_key) }

/-- `validationSchema.validate(value, options)`: cast, then run the field
tests on the cast result; resolves with the cast value when no test fails,
rejects with the field errors otherwise. -/
def validate (v : DeviceValues) (ctx : CastContext) (seed : Nat) : Except FieldErrors DeviceValues :=
  let c := cast v ctx seed
  let e := fieldErrors c ctx
  if e.isEmpty then Except.ok c else Except.error e

end validationSchema

/-- Whether a schema validation resolved (no field test failed). -/
def validateSucceeds (r : Except FieldErrors DeviceValues) : Bool :=
  match r with
  | Except.ok _ => true
  | Except.error _ => false

namespace JoinServerForm

/-- index.js lines 34-37: `root_keys` is truthy, `root_keys.nwk_key` is an
object and has zero enumerable properties. -/
def isNwkKeyHidden (d : DeviceValues) : Bool :=
  match d.root_keys with
  | none => false
  | some rk =>
    match rk.nwk_key with
    | some none => true
    | _ => false

/-- index.js lines 38-41: same predicate for `root_keys.app_key`. -/
def isAppKeyHidden (d : DeviceValues) : Bool :=
  match d.root_keys with
  | none => false
  | some rk =>
    match rk.app_key with
    | some none => true
    | _ => false

/-- index.js lines 74-76: `setResetsJoinNonces(externalJs ? false : resetsJoinNonces)`;
the returned value is the new local `resetsJoinNonces` state. -/
def handleResetsJoinNoncesChange (externalJs resetsJoinNonces : Bool) : Bool :=
  if externalJs then false else resetsJoinNonces

/-- index.js lines 79-93: on a toggle of the external-join-server checkbox
the controller calls `setValues(validationSchema.cast(initialValues, ...))`
with the new checkbox state in the context; the returned value is the new
form values object. The current (possibly edited) form values are in scope
through the form ref but are not used. -/
def handleExternalJsChange (initialValues currentValues : DeviceValues)
    (externalJsChecked : Bool) (lorawanVersion : Option Nat) (seed : Nat) : DeviceValues :=
  validationSchema.cast initialValues
    { externalJs := some externalJsChecked, lorawanVersion := lorawanVersion } seed

end JoinServerForm

/-- Modelled from the spec: the result of the `diff` collaborator
(webui lib diff, not under src/): a shallow field-level difference between
two normalized value objects, excluding a caller-specified set of keys. The
call site excludes exactly `_external_js` and `_lorawan_version`, so those
synthetic keys are structurally absent here; for every other field `some v`
records that the field changed to `v`. -/
structure Diff where
  join_server_address : Option (Option String) := none
  net_id : Option (Option String) := none
  root_keys : Option (Option RootKeys) := none
  resets_join_nonces : Option (Option Bool) := none
deriving DecidableEq, Repr

def Diff.isEmpty (d : Diff) : Bool :=
  d.join_server_address.isNone && d.net_id.isNone && d.root_keys.isNone &&
    d.resets_join_nonces.isNone

/-- Modelled from the spec: `diff(initialValues, castedValues, ['_external_js',
'_lorawan_version'])` marks each non-excluded field whose value differs
between the two objects with its new value. -/
def diff (old new : DeviceValues) : Diff :=
  { join_server_address :=
      if new.join_server_address = old.join_server_address then none
      else some new.join_server_address
    net_id := if new.net_id = old.net_id then none else some new.net_id
    root_keys := if new.root_keys = old.root_keys then none else some new.root_keys
    resets_join_nonces :=
      if new.resets_join_nonces = old.resets_join_nonces then none
      else some new.resets_join_nonces }

namespace JoinServerForm

/-- Observable outcome of one run of the submit handler: the diff the
external `onSubmit` callback was invoked with (if at all), the form-level
error state after the run, whether the submitting flag is cleared, and the
values the form was reset to (`none` when the form was not reset, so the
attempted values stay in place). -/
structure SubmitResult where
  calledWith : Option Diff
  error : Option String
  submitting : Bool
  resetTo : Option DeviceValues
deriving DecidableEq, Repr

/-- index.js lines 98-115: cast the current values under the current
context, diff them against the initial values excluding the synthetic keys,
clear the error, await `onSubmit(updatedValues)`; on resolution reset the
form to the cast values (they become the new baseline, and the reset clears
the submitting flag), on rejection call `setSubmitting(false)` and
`setError(err)` without resetting the form. -/
def onFormSubmit (onSubmit : Diff → Except String Unit) (initialValues values : DeviceValues)
    (ctx : CastContext) (seed : Nat) : SubmitResult :=
  let castedValues := validationSchema.cast values ctx seed
  let updatedValues := diff initialValues castedValues
  match onSubmit updatedValues with
  | Except.ok _ =>
    { calledWith := some updatedValues, error := none, submitting := false,
      resetTo := some castedValues }
  | Except.error err =>
    { calledWith := some updatedValues, error := some err, submitting := false,
      resetTo := none }

/-- index.js lines 117-123: the validate callback handed to the form. It is
called by the form library with the current form values, ignores them, and
calls `validationSchema.validate` with a single argument: the object
`{ context: { externalJs, lorawanVersion } }` in the values position and no
options. That object holds none of the schema fields (its only key,
`context`, is unknown to the schema), and with no options argument both
`$externalJs` and `$lorawanVersion` resolve to undefined. -/
def validateCallback (externalJs : Bool) (lorawanVersion : Option Nat)
    (values : DeviceValues) (seed : Nat) : Except FieldErrors DeviceValues :=
  validationSchema.validate {} { externalJs := none, lorawanVersion := none } seed

end JoinServerForm

/-! Helper lemmas about the modelled randomness source and idempotence of
the schema cast. -/

theorem hexChar_isHexDigitChar (k : Nat) : isHexDigitChar (hexChar k) = true := by
  unfold hexChar
  have h : k % 16 < 16 := Nat.mod_lt _ (by norm_num)
  set m := k % 16 with hm
  interval_cases m <;> decide

theorem randomByteString_length (n seed : Nat) : (randomByteString n seed).length = n := by
  simp [randomByteString, String.length]

theorem randomByteString_isHex (n seed : Nat) : isHexString (randomByteString n seed) = true := by
  rw [isHexString, randomByteString]
  rw [List.all_eq_true]
  intro x hx
  have hx2 : x ∈ (List.range n).map fun i => hexChar (seed / 16 ^ i) := hx
  obtain ⟨i, _, rfl⟩ := List.mem_map.1 hx2
  exact hexChar_isHexDigitChar _

theorem random16BytesString_length (seed : Nat) : (random16BytesString seed).length = 32 :=
  randomByteString_length 32 seed

theorem random16BytesString_isHex (seed : Nat) : isHexString (random16BytesString seed) = true :=
  randomByteString_isHex 32 seed

namespace validationSchema

theorem castJoinServerAddress_idem (ctx : CastContext) (x : Option String) :
    castJoinServerAddress ctx (castJoinServerAddress ctx x) = castJoinServerAddress ctx x := by
  unfold castJoinServerAddress
  by_cases h : ctx.externalJs = some false <;> simp [h] <;> cases x <;> rfl

theorem castNetId_idem (ctx : CastContext) (x : Option String) :
    castNetId ctx (castNetId ctx x) = castNetId ctx x := by
  unfold castNetId
  by_cases h : ctx.externalJs = some true <;> simp [h] <;> cases x <;> rfl

theorem castKeyObject_idem (s1 s2 : Nat) (x : Option (Option String)) :
    castKeyObject s2 (castKeyObject s1 x) = castKeyObject s1 x := by
  rcases x with _ | (_ | k) <;> rfl

theorem castRootKeys_idem (ctx : CastContext) (a b c d : Nat) (x : Option RootKeys) :
    castRootKeys ctx c d (castRootKeys ctx a b x) = castRootKeys ctx a b x := by
  unfold castRootKeys
  by_cases h : ctx.externalJs = some true
  · simp [h]
  · by_cases hv : versionAtLeast110 ctx.lorawanVersion <;>
      simp [h, hv, castKeyObject_idem]

theorem castResetsJoinNonces_idem (ctx : CastContext) (x : Option Bool) :
    castResetsJoinNonces ctx (castResetsJoinNonces ctx x) = castResetsJoinNonces ctx x := by
  unfold castResetsJoinNonces
  by_cases hv : versionAtLeast110 ctx.lorawanVersion <;> simp [hv]

theorem castExternalJsField_idem (ctx : CastContext) (x y : Option Bool) :
    castExternalJsField ctx x = castExternalJsField ctx y := by
  unfold castExternalJsField
  by_cases h : ctx.externalJs = some true <;> simp [h]

/-- Re-casting a cast value under the same context changes nothing, for any
draws of the randomness source: defaults only fill absent fields and the
first cast leaves no absent field behind in any non-stripped position. -/
theorem cast_idem (v : DeviceValues) (ctx : CastContext) (s1 s2 : Nat) :
    cast (cast v ctx s1) ctx s2 = cast v ctx s1 := by
  unfold cast
  simp only [DeviceValues.mk.injEq]
  exact ⟨castJoinServerAddress_idem ctx _, castNetId_idem ctx _,
    castRootKeys_idem ctx _ _ _ _ _, castResetsJoinNonces_idem ctx _,
    castExternalJsField_idem ctx _ _⟩

end validationSchema

/-- C1: for every device value and every context with externalJs = true, the
cast output contains none of join_server_address, net_id, root_keys.nwk_key,
root_keys.app_key: the first two fields are stripped entirely and both root
key objects are stripped from the root_keys object. -/
theorem cast_with_external_js_strips_join_fields (d : DeviceValues) (ver : Option Nat)
    (seed : Nat) :
    (validationSchema.cast d { externalJs := some true, lorawanVersion := ver } seed).join_server_address = none ∧
    (validationSchema.cast d { externalJs := some true, lorawanVersion := ver } seed).net_id = none ∧
    (validationSchema.cast d { externalJs := some true, lorawanVersion := ver } seed).root_keys =
      some { nwk_key := none, app_key := none } := by
  refine ⟨?_, ?_, ?_⟩ <;>
    simp [validationSchema.cast, validationSchema.castJoinServerAddress,
      validationSchema.castNetId, validationSchema.castRootKeys]

/-- C2: with externalJs = false and a parsed LoRaWAN version of at least 110,
casting a device with absent root_keys fills both nwk_key.key and
app_key.key, each a 32-character hexadecimal string, and re-casting the cast
output under the same context (with any further randomness draws) returns it
unchanged, so populated keys are never re-randomized. -/
theorem cast_defaults_root_keys_and_is_idempotent (d : DeviceValues) (n seed s2 : Nat)
    (hn : 110 ≤ n) (hrk : d.root_keys = none) :
    (∃ kn ka : String,
      (validationSchema.cast d { externalJs := some false, lorawanVersion := some n } seed).root_keys =
        some { nwk_key := some (some kn), app_key := some (some ka) } ∧
      kn.length = 32 ∧ isHexString kn = true ∧ ka.length = 32 ∧ isHexString ka = true) ∧
    validationSchema.cast
        (validationSchema.cast d { externalJs := some false, lorawanVersion := some n } seed)
        { externalJs := some false, lorawanVersion := some n } s2 =
      validationSchema.cast d { externalJs := some false, lorawanVersion := some n } seed := by
  constructor
  · refine ⟨random16BytesString (2 * seed), random16BytesString (2 * seed + 1), ?_,
      random16BytesString_length _, random16BytesString_isHex _,
      random16BytesString_length _, random16BytesString_isHex _⟩
    simp [validationSchema.cast, validationSchema.castRootKeys,
      validationSchema.castKeyObject, hrk, versionAtLeast110, hn]
  · exact validationSchema.cast_idem d _ seed s2

/-- Witness for C2 at the empty device, version 110, seeds 0 and 1. -/
theorem cast_defaults_root_keys_and_is_idempotent_witness :
    110 ≤ 110 ∧ ({} : DeviceValues).root_keys = none ∧
    ((∃ kn ka : String,
      (validationSchema.cast {} { externalJs := some false, lorawanVersion := some 110 } 0).root_keys =
        some { nwk_key := some (some kn), app_key := some (some ka) } ∧
      kn.length = 32 ∧ isHexString kn = true ∧ ka.length = 32 ∧ isHexString ka = true) ∧
    validationSchema.cast
        (validationSchema.cast {} { externalJs := some false, lorawanVersion := some 110 } 0)
        { externalJs := some false, lorawanVersion := some 110 } 1 =
      validationSchema.cast {} { externalJs := some false, lorawanVersion := some 110 } 0) :=
  ⟨by decide, rfl, cast_defaults_root_keys_and_is_idempotent {} 110 0 1 (by decide) rfl⟩

/-- C3: the validate callback passes a fixed object holding only the context
to the schema validate operation (in the values position, with no options
argument), so for any two form-value states under the same externalJs flag
and device it produces the identical result: the entered form values are
never the object being validated. -/
theorem validate_callback_ignores_form_values (ext : Bool) (ver : Option Nat)
    (v1 v2 : DeviceValues) (seed : Nat) :
    JoinServerForm.validateCallback ext ver v1 seed =
      validationSchema.validate {} { externalJs := none, lorawanVersion := none } seed ∧
    JoinServerForm.validateCallback ext ver v1 seed =
      JoinServerForm.validateCallback ext ver v2 seed :=
  ⟨rfl, rfl⟩

/-- C4: the external-join-server toggle re-casts the memoized initial values
(whatever the current edited values are) under the new context, so toggling
externalJs from false to true and back to false installs exactly the
original initial-cast values again, discarding intermediate edits. -/
theorem external_js_toggle_restores_initial_values
    (d edits1 edits2 : DeviceValues) (ver : Option Nat) (s0 s1 s2 : Nat) :
    JoinServerForm.handleExternalJsChange
        (validationSchema.cast d { externalJs := some false, lorawanVersion := ver } s0)
        edits2 false ver s2 =
      validationSchema.cast d { externalJs := some false, lorawanVersion := ver } s0 ∧
    JoinServerForm.handleExternalJsChange
        (validationSchema.cast d { externalJs := some false, lorawanVersion := ver } s0)
        edits1 true ver s1 =
      JoinServerForm.handleExternalJsChange
        (validationSchema.cast d { externalJs := some false, lorawanVersion := ver } s0)
        edits2 true ver s1 :=
  ⟨validationSchema.cast_idem d _ s0 s2, rfl⟩

/-- C5: every run of the submit handler invokes the external onSubmit
callback, and always with the field-level diff of the cast current values
against the initial values (the synthetic keys _external_js and
_lorawan_version being excluded from the diff by construction); in
particular the callback is invoked even when that diff is empty. -/
theorem submit_always_invokes_on_submit_with_diff
    (onSubmit : Diff → Except String Unit) (initialValues values : DeviceValues)
    (ctx : CastContext) (seed : Nat) :
    (JoinServerForm.onFormSubmit onSubmit initialValues values ctx seed).calledWith =
      some (diff initialValues (validationSchema.cast values ctx seed)) := by
  simp only [JoinServerForm.onFormSubmit]
  cases h : onSubmit (diff initialValues (validationSchema.cast values ctx seed)) <;> simp [h]

/-- C8: when the onSubmit callback rejects, the submit handler surfaces the
error as form-level state, clears the submitting flag and does not reset the
form (the attempted values stay in place); when the callback resolves, the
form is reset to the cast submitted values, which become the new initial
baseline. -/
theorem submit_outcome_characterization
    (cbF cbS : Diff → Except String Unit) (initialValues values : DeviceValues)
    (ctx : CastContext) (seed : Nat) (e : String)
    (hfail : cbF (diff initialValues (validationSchema.cast values ctx seed)) = Except.error e)
    (hok : cbS (diff initialValues (validationSchema.cast values ctx seed)) = Except.ok ()) :
    (JoinServerForm.onFormSubmit cbF initialValues values ctx seed).error = some e ∧
    (JoinServerForm.onFormSubmit cbF initialValues values ctx seed).submitting = false ∧
    (JoinServerForm.onFormSubmit cbF initialValues values ctx seed).resetTo = none ∧
    (JoinServerForm.onFormSubmit cbS initialValues values ctx seed).error = none ∧
    (JoinServerForm.onFormSubmit cbS initialValues values ctx seed).resetTo =
      some (validationSchema.cast values ctx seed) := by
  simp only [JoinServerForm.onFormSubmit]
  rw [hfail, hok]
  simp

/-- Witness for C8 at the empty device, an always-rejecting and an
always-resolving callback. -/
theorem submit_outcome_characterization_witness :
    ((fun _ => (Except.error "boom" : Except String Unit))
        (diff {} (validationSchema.cast {} {} 0)) = Except.error "boom") ∧
    ((fun _ => (Except.ok () : Except String Unit))
        (diff {} (validationSchema.cast {} {} 0)) = Except.ok ()) ∧
    ((JoinServerForm.onFormSubmit (fun _ => Except.error "boom") {} {} {} 0).error = some "boom" ∧
     (JoinServerForm.onFormSubmit (fun _ => Except.error "boom") {} {} {} 0).submitting = false ∧
     (JoinServerForm.onFormSubmit (fun _ => Except.error "boom") {} {} {} 0).resetTo = none ∧
     (JoinServerForm.onFormSubmit (fun _ => Except.ok ()) {} {} {} 0).error = none ∧
     (JoinServerForm.onFormSubmit (fun _ => Except.ok ()) {} {} {} 0).resetTo =
       some (validationSchema.cast {} {} 0)) :=
  ⟨rfl, rfl,
    submit_outcome_characterization (fun _ => Except.error "boom") (fun _ => Except.ok ())
      {} {} {} 0 "boom" rfl rfl⟩

/-- C9: the resets-join-nonces change handler forces the flag to false when
externalJs is true, keeps the current value when externalJs is false, and
hence over any sequence of handler invocations a false flag stays false:
the flag never transitions from false to true. -/
theorem resets_join_nonces_never_becomes_true (r ext : Bool) (exts : List Bool) :
    JoinServerForm.handleResetsJoinNoncesChange true r = false ∧
    JoinServerForm.handleResetsJoinNoncesChange false r = r ∧
    JoinServerForm.handleResetsJoinNoncesChange ext false = false ∧
    exts.foldl (fun cur e => JoinServerForm.handleResetsJoinNoncesChange e cur) false = false := by
  refine ⟨rfl, rfl, ?_, ?_⟩
  · cases ext <;> rfl
  · induction exts with
    | nil => rfl
    | cons e t ih =>
      cases e <;> simpa [JoinServerForm.handleResetsJoinNoncesChange] using ih

/-- C10: the hidden-key predicates are total over the modelled device values
and hold exactly when root_keys is present and the respective key field is
the empty marker object; they are false for an absent key field and for a
key object carrying a key. -/
theorem key_hidden_characterization (d : DeviceValues) :
    (JoinServerForm.isNwkKeyHidden d = true ↔
      ∃ rk, d.root_keys = some rk ∧ rk.nwk_key = some none) ∧
    (JoinServerForm.isAppKeyHidden d = true ↔
      ∃ rk, d.root_keys = some rk ∧ rk.app_key = some none) := by
  obtain ⟨jsa, nid, rk, rjn, ejs⟩ := d
  cases rk with
  | none => simp [JoinServerForm.isNwkKeyHidden, JoinServerForm.isAppKeyHidden]
  | some rk0 =>
    obtain ⟨nk, ak⟩ := rk0
    constructor
    · rcases nk with _ | (_ | k) <;>
        simp [JoinServerForm.isNwkKeyHidden]
    · rcases ak with _ | (_ | k) <;>
        simp [JoinServerForm.isAppKeyHidden]

/-- C6 counterexample: join_server_address is not required. With externalJs
false and the field entirely absent from the input, validation reports no
error on it (and resolves): cast fills the configured hostname default and
no required rule exists in the schema. -/
theorem join_server_address_not_required_counterexample :
    ({} : DeviceValues).join_server_address = none ∧
    (validationSchema.fieldErrors
        (validationSchema.cast {} { externalJs := some false, lorawanVersion := some 110 } 0)
        { externalJs := some false, lorawanVersion := some 110 }).join_server_address = none ∧
    validateSucceeds
        (validationSchema.validate {} { externalJs := some false, lorawanVersion := some 110 } 0) =
      true := by
  refine ⟨rfl, by decide, by decide⟩

/-- C6 amended: when externalJs is false, join_server_address defaults under
cast to the hostname of the statically configured join-server base URL,
present values are kept and validate reports an address-format error exactly
when the value fails the address pattern; an absent value is defaulted, not
rejected (the schema has no required rule). When externalJs is true the
field is stripped and no address validation applies. -/
theorem join_server_address_rules (d : DeviceValues) (s : String) (ver : Option Nat)
    (seed : Nat) :
    (validationSchema.cast { d with join_server_address := none }
        { externalJs := some false, lorawanVersion := ver } seed).join_server_address =
      some jsHostname ∧
    (validationSchema.cast { d with join_server_address := some s }
        { externalJs := some false, lorawanVersion := ver } seed).join_server_address = some s ∧
    ((validationSchema.fieldErrors
        (validationSchema.cast { d with join_server_address := some s }
          { externalJs := some false, lorawanVersion := ver } seed)
        { externalJs := some false, lorawanVersion := ver }).join_server_address = none ↔
      addressMatches s = true) ∧
    (validationSchema.cast d
        { externalJs := some true, lorawanVersion := ver } seed).join_server_address = none ∧
    (validationSchema.fieldErrors
        (validationSchema.cast d { externalJs := some true, lorawanVersion := ver } seed)
        { externalJs := some true, lorawanVersion := ver }).join_server_address = none := by
  refine ⟨?_, ?_, ?_, ?_, ?_⟩
  · simp [validationSchema.cast, validationSchema.castJoinServerAddress]
  · simp [validationSchema.cast, validationSchema.castJoinServerAddress]
  · simp only [validationSchema.fieldErrors, validationSchema.testJoinServerAddress,
      validationSchema.cast, validationSchema.castJoinServerAddress]
    by_cases h : addressMatches s <;> simp [h]
  · simp [validationSchema.cast, validationSchema.castJoinServerAddress]
  · simp [validationSchema.fieldErrors, validationSchema.testJoinServerAddress]

/-- C7: when externalJs is false, net_id is an optional string defaulting to
the empty string, and validate accepts it exactly when it is empty or
exactly 6 hexadecimal characters: "abcd" yields the length error and
"abc123" passes. When externalJs is true net_id is removed from the
output. -/
theorem net_id_rules (d : DeviceValues) (s : String) (ver : Option Nat) (seed : Nat) :
    (validationSchema.cast { d with net_id := none }
        { externalJs := some false, lorawanVersion := ver } seed).net_id = some "" ∧
    ((validationSchema.fieldErrors
        (validationSchema.cast { d with net_id := some s }
          { externalJs := some false, lorawanVersion := ver } seed)
        { externalJs := some false, lorawanVersion := ver }).net_id = none ↔
      (s = "" ∨ (s.length = 6 ∧ isHexString s = true))) ∧
    (validationSchema.fieldErrors
        (validationSchema.cast { d with net_id := some "abcd" }
          { externalJs := some false, lorawanVersion := ver } seed)
        { externalJs := some false, lorawanVersion := ver }).net_id = some "validate6" ∧
    (validationSchema.fieldErrors
        (validationSchema.cast { d with net_id := some "abc123" }
          { externalJs := some false, lorawanVersion := ver } seed)
        { externalJs := some false, lorawanVersion := ver }).net_id = none ∧
    (validationSchema.cast d { externalJs := some true, lorawanVersion := ver } seed).net_id =
      none := by
  refine ⟨?_, ?_, ?_, ?_, ?_⟩
  · simp [validationSchema.cast, validationSchema.castNetId]
  · simp only [validationSchema.fieldErrors, validationSchema.testNetId,
      validationSchema.cast, validationSchema.castNetId]
    simp only [emptyOrLength]
    rw [if_neg (by decide), if_neg (by decide)]
    show (if (s == "" || (s.length == 3 * 2 && isHexString s)) = true then (none : Option String)
        else some "validate6") = none ↔ _
    by_cases h : (s == "" || (s.length == 3 * 2 && isHexString s)) = true
    · rw [if_pos h]
      simp only [Bool.or_eq_true, Bool.and_eq_true, beq_iff_eq] at h
      simp [h]
    · rw [if_neg h]
      simp only [Bool.or_eq_true, Bool.and_eq_true, beq_iff_eq] at h
      simp [h]
  · simp only [validationSchema.fieldErrors, validationSchema.testNetId,
      validationSchema.cast, validationSchema.castNetId]
    decide
  · simp only [validationSchema.fieldErrors, validationSchema.testNetId,
      validationSchema.cast, validationSchema.castNetId]
    decide
  · simp [validationSchema.cast, validationSchema.castNetId]
